import Mathlib

/-!
Verification development for the arcan TUI input-extension layer
(src/src/shmif/arcan_tuiext.h) and the EGL function-pointer loader
(src/src/platform/egl-dri/egl.h).

The tuiext header only declares the readline / bufferwnd API together with
its documented contract; the implementations live outside the material, so
the engine bodies below are modelled from the specification document.
The EGL mapping functions are present in full in egl.h and are embedded
directly from that source.
-/

set_option maxHeartbeats 1000000

namespace Arcan

/-!
## EGL function-pointer environment, from src/src/platform/egl-dri/egl.h

`struct egl_env` holds one function pointer per EGL entry point.  In the
shallow embedding the pointer values are drawn from an abstract type `V`
and the dynamic loader `lookup` (C: `void*(lookup)(void* tag, const char*
sym, bool req)`) is an abstract function `T → String → Bool → V`.
The C field `initialize` is called `init_fn` here (the original name is
not usable in this development); every other field keeps its C name.
-/

structure egl_env (V : Type) where
  create_image : V
  destroy_image : V
  image_target_texture2D : V
  query_dmabuf_formats : V
  query_dmabuf_modifiers : V
  export_dmabuf : V
  query_image_format : V
  query_devices : V
  query_device_string : V
  get_platform_display : V
  get_output_layers : V
  create_stream : V
  destroy_stream : V
  stream_consumer_output : V
  create_stream_producer_surface : V
  stream_consumer_acquire : V
  stream_consumer_acquire_attrib : V
  destroy_surface : V
  get_error : V
  create_window_surface : V
  make_current : V
  get_display : V
  init_fn : V
  bind_api : V
  get_configs : V
  choose_config : V
  create_context : V
  get_proc_address : V
  destroy_context : V
  terminate : V
  query_string : V
  swap_buffers : V
  swap_interval : V
  get_config_attrib : V

/-- Embeds `map_eglext_functions` from egl.h: every extension entry point
is fetched with `req = false`; the assignment order follows the source. -/
def map_eglext_functions {V T : Type} (denv : egl_env V)
    (lookup : T → String → Bool → V) (tag : T) : egl_env V :=
  { denv with
    create_image := lookup tag "eglCreateImageKHR" false
    destroy_image := lookup tag "eglDestroyImageKHR" false
    image_target_texture2D := lookup tag "glEGLImageTargetTexture2DOES" false
    query_dmabuf_modifiers := lookup tag "eglQueryDmaBufModifiersEXT" false
    query_dmabuf_formats := lookup tag "eglQueryDmaBufFormatsEXT" false
    query_image_format := lookup tag "eglExportDMABUFImageQueryMESA" false
    export_dmabuf := lookup tag "eglExportDMABUFImageMESA" false
    query_device_string := lookup tag "eglQueryDeviceStringEXT" false
    query_devices := lookup tag "eglQueryDevicesEXT" false
    get_platform_display := lookup tag "eglGetPlatformDisplayEXT" false
    get_output_layers := lookup tag "eglGetOutputLayersEXT" false
    create_stream := lookup tag "eglCreateStreamKHR" false
    destroy_stream := lookup tag "eglDestroyStreamKHR" false
    stream_consumer_output := lookup tag "eglStreamConsumerOutputEXT" false
    create_stream_producer_surface := lookup tag "eglCreateStreamProducerSurfaceKHR" false
    stream_consumer_acquire := lookup tag "eglStreamConsumerAcquireKHR" false
    stream_consumer_acquire_attrib := lookup tag "eglStreamConsumerAcquireAttribNV" false }

/-- Embeds `map_egl_functions` from egl.h: every core entry point that the
function assigns is fetched with `req = true`; `get_proc_address` does not
appear on the left of any assignment in the source. -/
def map_egl_functions {V T : Type} (denv : egl_env V)
    (lookup : T → String → Bool → V) (tag : T) : egl_env V :=
  { denv with
    get_config_attrib := lookup tag "eglGetConfigAttrib" true
    destroy_surface := lookup tag "eglDestroySurface" true
    get_error := lookup tag "eglGetError" true
    create_window_surface := lookup tag "eglCreateWindowSurface" true
    make_current := lookup tag "eglMakeCurrent" true
    get_display := lookup tag "eglGetDisplay" true
    init_fn := lookup tag "eglInitialize" true
    bind_api := lookup tag "eglBindAPI" true
    get_configs := lookup tag "eglGetConfigs" true
    choose_config := lookup tag "eglChooseConfig" true
    create_context := lookup tag "eglCreateContext" true
    destroy_context := lookup tag "eglDestroyContext" true
    terminate := lookup tag "eglTerminate" true
    query_string := lookup tag "eglQueryString" true
    swap_buffers := lookup tag "eglSwapBuffers" true
    swap_interval := lookup tag "eglSwapInterval" true }

/-!
## History-store persistence

Modelled from the spec: the bodies of `arcan_tui_readline_savestate` and
`arcan_tui_readline_loadstate` are not part of the source material (the
header only declares them), and the spec fixes the logical contract:
an opaque serialized form of the history store with a version tag and
length-prefixed entries, validated structurally on load, with the
round-trip law `load(save(S)) == S`.
-/

/-- A byte of a serialized state buffer (C: `uint8_t`). -/
abbrev Byte := Fin 256

/-- Modelled from the spec: self-delimiting length prefix used in the
persisted state.  Values below 255 are one byte; larger values spill a
255 marker byte and continue. -/
def encLen (n : Nat) : List Byte :=
  if h : n < 255 then [⟨n, by omega⟩]
  else ⟨255, by omega⟩ :: encLen (n - 255)
termination_by n
decreasing_by omega

/-- Modelled from the spec: decoder for `encLen`, returning the decoded
length and the remaining bytes, or `none` on a truncated prefix. -/
def decLen : List Byte → Option (Nat × List Byte)
  | [] => none
  | b :: rest =>
    if b.val < 255 then some (b.val, rest)
    else
      match decLen rest with
      | some (m, r) => some (m + 255, r)
      | none => none

/-- Modelled from the spec: one length-prefixed history entry. -/
def encEntry (e : List Byte) : List Byte := encLen e.length ++ e

/-- Modelled from the spec: concatenation of length-prefixed entries, in
store order. -/
def encEntries : List (List Byte) → List Byte
  | [] => []
  | e :: es => encEntry e ++ encEntries es

/-- Modelled from the spec: structural parse of a sequence of
length-prefixed entries.  `fuel` bounds the recursion; one byte at least
is consumed per entry, so `fuel = l.length` never cuts a parse short.
Fails (`none`) on a truncated entry. -/
def parseEntriesF (fuel : Nat) (l : List Byte) : Option (List (List Byte)) :=
  if l = [] then some []
  else
    match fuel with
    | 0 => none
    | fuel + 1 =>
      match decLen l with
      | none => none
      | some (n, rest) =>
        if n ≤ rest.length then
          match parseEntriesF fuel (rest.drop n) with
          | none => none
          | some es => some (rest.take n :: es)
        else none

/-- Version tag of the persisted state format. -/
def STATE_VERSION : Byte := ⟨1, by omega⟩

/-- Modelled from the spec: structural validation and parse of a whole
persisted-state buffer — version tag, then length-prefixed entries. -/
def parse_history (buf : List Byte) : Option (List (List Byte)) :=
  match buf with
  | [] => none
  | v :: rest => if v = STATE_VERSION then parseEntriesF rest.length rest else none

/-!
## Readline engine

Modelled from the spec (§4.2) and the documented contract in
arcan_tuiext.h: the header declares the API only.
-/

/-- An opaque parent/popup display context collaborator; the row/column
grid dimensions are the only part of it the modelled layer consults. -/
structure TuiContext where
  rows : Nat
  cols : Nat
deriving DecidableEq

/-- Opaque token standing for a caller-supplied `on_update` callback. -/
structure UpdateCb where
  id : Nat
deriving DecidableEq

/-- A completion candidate: text plus an optional 3-component color hint
(C: `char** outmsg, uint8_t* outrgb[3]`). -/
structure CompletionCandidate where
  text : String
  rgb : Option (Nat × Nat × Nat)
deriving DecidableEq

/-- A completion collaborator: `(partial text, index)` to either a
candidate (C callback returned true) or `none` (returned false). -/
abbrev CompletionCb := String → Nat → Option CompletionCandidate

/-- C: `struct readline_args` from arcan_tuiext.h. -/
structure readline_args where
  multiline : Bool
deriving DecidableEq

/-- Modelled from the spec: readline engine state — line buffer of
codepoints, cursor offset (a codepoint index), done flag, history store,
multiline flag. -/
structure ReadlineState where
  line : List Char
  cursor : Nat
  done : Bool
  history : List (List Byte)
  multiline : Bool
deriving DecidableEq

/-- Symbolic editing keys dispatched to the key layer. -/
inductive TuiKey where
  | left
  | right
  | home
  | kend
  | backspace
  | delete
  | enter
  | up
  | down
  | other (code : Nat)
deriving DecidableEq

/-- An input event as routed into the readline engine by the dispatch
chain: a UTF-8 codepoint run or a symbolic key. -/
inductive RLEvent where
  | utf8 (cs : List Char)
  | key (k : TuiKey)
deriving DecidableEq

/-- Modelled from the spec: `arcan_tui_readline_setup`.  Returns `none`
(C: NULL) exactly when the mandatory `parent` or `on_update` collaborator
is absent; otherwise a fresh engine state. -/
def arcan_tui_readline_setup (parent popup : Option TuiContext)
    (on_update : Option UpdateCb) (on_completion : Option CompletionCb)
    (opts : readline_args) : Option ReadlineState :=
  match parent, on_update with
  | some _, some _ =>
    some { line := [], cursor := 0, done := false, history := [],
           multiline := opts.multiline }
  | _, _ => none

/-- Modelled from the spec: printable UTF-8 input is inserted at the
cursor and the cursor advances by the inserted codepoint count. -/
def rl_insert (st : ReadlineState) (cs : List Char) : ReadlineState :=
  { st with
    line := st.line.take st.cursor ++ cs ++ st.line.drop st.cursor
    cursor := st.cursor + cs.length }

/-- Modelled from the spec: editing keys mutate buffer and cursor per
standard line-editor semantics; boundary cases are silent no-ops.
Vertical movement depends on the caller-supplied wrap width, which lives
outside this layer, so `up`/`down` leave the offset unchanged here. -/
def rl_key (st : ReadlineState) (k : TuiKey) : ReadlineState :=
  match k with
  | .left => if st.cursor = 0 then st else { st with cursor := st.cursor - 1 }
  | .right =>
    if st.cursor < st.line.length then { st with cursor := st.cursor + 1 } else st
  | .home => { st with cursor := 0 }
  | .kend => { st with cursor := st.line.length }
  | .backspace =>
    if st.cursor = 0 then st
    else { st with
           line := st.line.take (st.cursor - 1) ++ st.line.drop st.cursor
           cursor := st.cursor - 1 }
  | .delete =>
    if st.cursor < st.line.length then
      { st with line := st.line.take st.cursor ++ st.line.drop (st.cursor + 1) }
    else st
  | .enter => { st with done := true }
  | .up => st
  | .down => st
  | .other _ => st

/-- Modelled from the spec: `feed(event)` — one dispatched input event
mutating the engine state. -/
def rl_feed (st : ReadlineState) (ev : RLEvent) : ReadlineState :=
  match ev with
  | .utf8 cs => rl_insert st cs
  | .key k => rl_key st k

/-- Modelled from the spec: derived cursor position `(offset_x, offset_y)`
given the caller's wrap width; `offset_y` is 0 unless multiline. -/
def cursor_position (st : ReadlineState) (wrap : Nat) : Nat × Nat :=
  if st.multiline then
    if 0 < wrap then (st.cursor % wrap, st.cursor / wrap) else (st.cursor, 0)
  else (st.cursor, 0)

/-- Modelled from the spec: `arcan_tui_readline_clear` resets line,
cursor and done flag; history is untouched. -/
def arcan_tui_readline_clear (st : ReadlineState) : ReadlineState :=
  { st with line := [], cursor := 0, done := false }

/-- Modelled from the spec: `arcan_tui_readline_addhistory` appends an
entry to the history store; line and cursor are untouched. -/
def arcan_tui_readline_addhistory (st : ReadlineState) (e : List Byte) :
    ReadlineState :=
  { st with history := st.history ++ [e] }

/-- Modelled from the spec: `arcan_tui_readline_savestate` serializes the
history store (and only the history store) behind a version tag.
Allocation failure, the only failure mode in the C API, is not
representable in the model. -/
def arcan_tui_readline_savestate (st : ReadlineState) : List Byte :=
  STATE_VERSION :: encEntries st.history

/-- Modelled from the spec: `arcan_tui_readline_loadstate` restores the
history store from a buffer; on a structurally malformed buffer it
returns false and leaves the existing store untouched. -/
def arcan_tui_readline_loadstate (st : ReadlineState) (buf : List Byte) :
    Bool × ReadlineState :=
  match parse_history buf with
  | some hs => (true, { st with history := hs })
  | none => (false, st)

/-!
## Completion enumeration

Modelled from the spec: the engine calls the collaborator with increasing
index starting at 0 until it returns false or an internal bound on the
candidate count is reached.  The spec leaves the numeric bound open; the
model fixes a concrete cap.
-/

/-- Internal bound on the number of completion-collaborator invocations. -/
def COMPLETION_BOUND : Nat := 64

/-- Modelled from the spec: bounded enumeration loop.  Returns the
collected candidates together with the list of indices at which the
collaborator was invoked, in invocation order. -/
def completion_enum (cb : CompletionCb) (txt : String) :
    Nat → Nat → List CompletionCandidate × List Nat
  | 0, _ => ([], [])
  | fuel + 1, idx =>
    match cb txt idx with
    | none => ([], [idx])
    | some c =>
      let r := completion_enum cb txt fuel (idx + 1)
      (c :: r.1, idx :: r.2)

/-- Modelled from the spec: one full completion-resolution pass for the
current partial text. -/
def readline_completion_run (cb : CompletionCb) (txt : String) :
    List CompletionCandidate × List Nat :=
  completion_enum cb txt COMPLETION_BOUND 0

/-!
## Buffer window engine

Modelled from the spec (§4.3) and the documented contract in
arcan_tuiext.h: the header declares the API only.
-/

/-- Display-mode selector of the buffer window. -/
inductive BufMode where
  | text
  | binary
deriving DecidableEq

/-- Modelled from the spec: buffer window state — caller-provided byte
buffer, edit cursor (a byte offset), display mode, write-enable flag, and
the grid dimensions taken from the parent context. -/
structure BufferwndState where
  buf : List Byte
  cursor : Nat
  mode : BufMode
  write_enable : Bool
  rows : Nat
  cols : Nat
deriving DecidableEq

/-- Modelled from the spec: `arcan_tui_bufferwnd` — create a window over
a caller-owned buffer, starting in text mode with the cursor at 0. -/
def arcan_tui_bufferwnd (ctx : TuiContext) (buf : List Byte)
    (write_enable : Bool) : BufferwndState :=
  { buf := buf, cursor := 0, mode := .text, write_enable := write_enable,
    rows := ctx.rows, cols := ctx.cols }

/-- Modelled from the spec: caller-driven display-mode selection. -/
def bufferwnd_set_mode (st : BufferwndState) (m : BufMode) : BufferwndState :=
  { st with mode := m }

/-- Modelled from the spec: the UTF-8 dispatch layer.  In text mode the
event is consumed: with write enabled the run is inserted at the cursor,
otherwise the mutation is rejected as a no-op.  In binary mode UTF-8
events are never meaningful and the layer never consumes them. -/
def arcan_tui_bufferwnd_input_utf8 (st : BufferwndState) (cs : List Byte) :
    Bool × BufferwndState :=
  match st.mode with
  | .binary => (false, st)
  | .text =>
    if st.write_enable then
      (true, { st with
               buf := st.buf.take st.cursor ++ cs ++ st.buf.drop st.cursor
               cursor := st.cursor + cs.length })
    else (true, st)

/-- Modelled from the spec: the key dispatch layer — navigation always
works; destructive edits require write-enable and are otherwise silently
rejected; boundary cases are silent no-ops. -/
def arcan_tui_bufferwnd_input_key (st : BufferwndState) (k : TuiKey) :
    BufferwndState :=
  match k with
  | .left => if st.cursor = 0 then st else { st with cursor := st.cursor - 1 }
  | .right =>
    if st.cursor < st.buf.length then { st with cursor := st.cursor + 1 } else st
  | .home => { st with cursor := 0 }
  | .kend => { st with cursor := st.buf.length }
  | .backspace =>
    if st.write_enable then
      if st.cursor = 0 then st
      else { st with
             buf := st.buf.take (st.cursor - 1) ++ st.buf.drop st.cursor
             cursor := st.cursor - 1 }
    else st
  | .delete =>
    if st.write_enable then
      if st.cursor < st.buf.length then
        { st with buf := st.buf.take st.cursor ++ st.buf.drop (st.cursor + 1) }
      else st
    else st
  | _ => st

/-- Modelled from the spec: resolve a logical pointer position to a byte
offset using the active display mode's layout — a row/column grid in text
mode, a column-grouped (3 cells per byte) hex grid in binary mode.
Positions outside the rendered grid, or resolving past the buffer,
yield `none`. -/
def resolve_click (st : BufferwndState) (lx ly : Int) : Option Nat :=
  if lx < 0 ∨ ly < 0 then none
  else if lx.toNat < st.cols ∧ ly.toNat < st.rows then
    match st.mode with
    | .text =>
      if ly.toNat * st.cols + lx.toNat ≤ st.buf.length then
        some (ly.toNat * st.cols + lx.toNat)
      else none
    | .binary =>
      if lx.toNat / 3 < st.cols / 3 then
        if ly.toNat * (st.cols / 3) + lx.toNat / 3 ≤ st.buf.length then
          some (ly.toNat * (st.cols / 3) + lx.toNat / 3)
        else none
      else none
  else none

/-- Modelled from the spec: `arcan_tui_bufferwnd_input_mbtn` — on a press,
relocate the edit cursor to the resolved offset when it is valid; invalid
clicks are ignored, not errors. -/
def arcan_tui_bufferwnd_input_mbtn (st : BufferwndState) (lx ly : Int)
    (button : Nat) (active : Bool) (mods : Nat) : BufferwndState :=
  if active then
    match resolve_click st lx ly with
    | some off => { st with cursor := off }
    | none => st
  else st

/-- An input event as routed into the buffer window engine. -/
inductive BWEvent where
  | utf8 (cs : List Byte)
  | key (k : TuiKey)
  | mbtn (lx ly : Int) (button : Nat) (active : Bool) (mods : Nat)
deriving DecidableEq

/-- Modelled from the spec: one dispatched event applied to the buffer
window state. -/
def bufferwnd_feed (st : BufferwndState) (ev : BWEvent) : BufferwndState :=
  match ev with
  | .utf8 cs => (arcan_tui_bufferwnd_input_utf8 st cs).2
  | .key k => arcan_tui_bufferwnd_input_key st k
  | .mbtn lx ly b a m => arcan_tui_bufferwnd_input_mbtn st lx ly b a m

/-!
## Input dispatch chain

From the contract stated in arcan_tuiext.h (lines 154-158): the input
flow is `input_label -> input_utf8 -> input_key`, where each stage
returns true if it consumed the event and the chain is then cancelled.
The handlers themselves are abstract state transformers.
-/

/-- The three layers of the dispatch chain, in their fixed order. -/
inductive Layer where
  | label
  | utf8
  | key
deriving DecidableEq

/-- Run a chain of (layer, handler) pairs on a state: each handler
returns a consumed flag and the updated state; the chain stops at the
first handler that consumes.  The result carries the final state, the
list of layers that actually observed the event (in order), and the
layer that consumed it, if any. -/
def runChain {S : Type} :
    List (Layer × (S → Bool × S)) → S → S × List Layer × Option Layer
  | [], st => (st, [], none)
  | (id, h) :: rest, st =>
    let r := h st
    if r.1 then (r.2, [id], some id)
    else
      let rr := runChain rest r.2
      (rr.1, id :: rr.2.1, rr.2.2)

/-- The tui input chain: label, then UTF-8 text, then raw key. -/
def tui_chain {S : Type} (hl hu hk : S → Bool × S) :
    List (Layer × (S → Bool × S)) :=
  [(Layer.label, hl), (Layer.utf8, hu), (Layer.key, hk)]

/-!
## Concrete example states and handlers used by scenario theorems
-/

/-- A concrete engine state with a non-empty history store, used to
witness the failure paths. -/
def rl_example : ReadlineState :=
  { line := [], cursor := 0, done := false,
    history := [[(104 : Byte), (105 : Byte)]], multiline := false }

/-- The event sequence of the spec scenario for printable input:
"abc", Left, Left, "X". -/
def c3_events : List RLEvent :=
  [RLEvent.utf8 "abc".toList, RLEvent.key TuiKey.left,
   RLEvent.key TuiKey.left, RLEvent.utf8 "X".toList]

/-- A dispatch-layer handler that always consumes, bumping a counter. -/
def hconsume : Nat → Bool × Nat := fun n => (true, n + 1)

/-- A dispatch-layer handler that never consumes, bumping a counter. -/
def hpass : Nat → Bool × Nat := fun n => (false, n + 2)

/-- A completion collaborator that always returns a candidate. -/
def cbAlways : CompletionCb := fun _ _ => some { text := "a", rgb := none }

/-- A write-protected 16-byte binary-mode buffer window. -/
def bw_example : BufferwndState :=
  bufferwnd_set_mode
    (arcan_tui_bufferwnd { rows := 25, cols := 80 }
      (List.replicate 16 (0 : Byte)) false) BufMode.binary

/-!
## Lemmas: history-store persistence
-/

theorem encLen_ne_nil (n : Nat) : encLen n ≠ [] := by
  rw [encLen]
  split <;> simp

theorem decLen_encLen (n : Nat) (rest : List Byte) :
    decLen (encLen n ++ rest) = some (n, rest) := by
  induction n using Nat.strong_induction_on with
  | _ n ih =>
    rw [encLen]
    split
    · next h =>
      simp [decLen, h]
    · next h =>
      have h255 : ¬ (255 : Nat) < 255 := by omega
      simp only [List.cons_append, decLen, h255, if_false, List.append_eq]
      rw [ih (n - 255) (by omega)]
      have hn : n - 255 + 255 = n := by omega
      simp [hn]

theorem parseEntriesF_encEntries (hist : List (List Byte)) :
    ∀ fuel, (encEntries hist).length ≤ fuel →
      parseEntriesF fuel (encEntries hist) = some hist := by
  induction hist with
  | nil =>
    intro fuel _
    cases fuel <;> simp [encEntries, parseEntriesF]
  | cons e es ih =>
    intro fuel hf
    have hne : encEntry e ++ encEntries es ≠ [] := by
      intro hc
      exact encLen_ne_nil e.length (List.append_eq_nil.mp
        (List.append_eq_nil.mp (by simpa [encEntry] using hc)).1).1
    have hlen : 0 < (encLen e.length).length :=
      List.length_pos.mpr (encLen_ne_nil e.length)
    have hflen : (encEntry e ++ encEntries es).length =
        (encLen e.length).length + e.length + (encEntries es).length := by
      simp [encEntry, List.length_append]
      omega
    match fuel with
    | 0 =>
      exfalso
      rw [encEntries] at hf
      omega
    | fuel + 1 =>
      rw [encEntries, parseEntriesF, if_neg hne]
      have hassoc : encEntry e ++ encEntries es =
          encLen e.length ++ (e ++ encEntries es) := by
        simp [encEntry, List.append_assoc]
      rw [hassoc, decLen_encLen]
      have hle : e.length ≤ (e ++ encEntries es).length := by
        simp [List.length_append]
      have htake : (e ++ encEntries es).take e.length = e := List.take_left e _
      have hdrop : (e ++ encEntries es).drop e.length = encEntries es :=
        List.drop_left e _
      dsimp only
      rw [if_pos hle, htake, hdrop, ih fuel (by rw [encEntries] at hf; omega)]

/-- C1: for every history store, restoring from the buffer produced by
`arcan_tui_readline_savestate` succeeds and reproduces exactly the same
entries in the same order, regardless of the pre-existing state of the
engine that loads. -/
theorem C1_savestate_loadstate_roundtrip (st src : ReadlineState) :
    arcan_tui_readline_loadstate st (arcan_tui_readline_savestate src)
      = (true, { st with history := src.history }) := by
  have hp : parse_history (arcan_tui_readline_savestate src) = some src.history := by
    rw [arcan_tui_readline_savestate, parse_history, if_pos rfl]
    exact parseEntriesF_encEntries src.history _ le_rfl
  rw [arcan_tui_readline_loadstate, hp]

/-- C6: `arcan_tui_readline_loadstate` on a buffer that fails structural
validation returns a failure indication and leaves the engine state,
history store included, exactly as it was. -/
theorem C6_loadstate_malformed_keeps_history (st : ReadlineState)
    (buf : List Byte) (h : parse_history buf = none) :
    arcan_tui_readline_loadstate st buf = (false, st) := by
  rw [arcan_tui_readline_loadstate, h]

/-- Witness for C6: a wrong version tag and a truncated entry both fail
validation and leave the example store untouched. -/
theorem C6_loadstate_malformed_witness :
    parse_history [(0 : Byte)] = none
    ∧ parse_history [(1 : Byte), (5 : Byte)] = none
    ∧ arcan_tui_readline_loadstate rl_example [(0 : Byte)] = (false, rl_example)
    ∧ arcan_tui_readline_loadstate rl_example [(1 : Byte), (5 : Byte)]
        = (false, rl_example) := by
  refine ⟨by decide, by decide, ?_, ?_⟩
  · exact C6_loadstate_malformed_keeps_history rl_example _ (by decide)
  · exact C6_loadstate_malformed_keeps_history rl_example _ (by decide)

/-- C5: readline setup yields a failure handle exactly when the parent
context or the update callback is absent; with both present it yields an
engine handle (so no failure, and in the `none` case no state exists at
all). -/
theorem C5_setup_mandatory_collaborators (parent popup : Option TuiContext)
    (on_update : Option UpdateCb) (on_completion : Option CompletionCb)
    (opts : readline_args) :
    arcan_tui_readline_setup parent popup on_update on_completion opts = none
      ↔ (parent = none ∨ on_update = none) := by
  cases parent <;> cases on_update <;>
    simp [arcan_tui_readline_setup]

/-- Witness for C5: with the parent context absent setup fails, and with
both mandatory collaborators present it does not. -/
theorem C5_setup_mandatory_collaborators_witness :
    arcan_tui_readline_setup none none (some ⟨0⟩) none { multiline := false }
        = none
    ∧ ¬ arcan_tui_readline_setup (some ⟨25, 80⟩) none (some ⟨0⟩) none
        { multiline := false } = none := by
  refine ⟨?_, ?_⟩
  · exact (C5_setup_mandatory_collaborators none none (some ⟨0⟩) none
      { multiline := false }).mpr (Or.inl rfl)
  · intro hc
    rcases (C5_setup_mandatory_collaborators (some ⟨25, 80⟩) none (some ⟨0⟩)
      none { multiline := false }).mp hc with h | h <;> exact Option.noConfusion h

/-- C3: printable UTF-8 input is inserted at the cursor and advances the
cursor by the inserted codepoint count; concretely, from a fresh
non-multiline engine, feeding "abc", Left, Left, "X" yields the line
"aXbc" with cursor position (2, 0). -/
theorem C3_utf8_insert_scenario :
    (∀ (st : ReadlineState) (cs : List Char),
      (rl_feed st (RLEvent.utf8 cs)).line
          = st.line.take st.cursor ++ cs ++ st.line.drop st.cursor
        ∧ (rl_feed st (RLEvent.utf8 cs)).cursor = st.cursor + cs.length)
    ∧ (arcan_tui_readline_setup (some ⟨25, 80⟩) none (some ⟨0⟩) none
          { multiline := false }).map
        (fun st0 =>
          ((c3_events.foldl rl_feed st0).line,
            cursor_position (c3_events.foldl rl_feed st0) 80))
      = some ("aXbc".toList, 2, 0) := by
  exact ⟨fun st cs => ⟨rfl, rfl⟩, rfl⟩

/-- C10: composing `map_eglext_functions` with `map_egl_functions`
assigns every core-EGL field of `egl_env` via `lookup tag sym true`,
except `get_proc_address`, which neither function writes, so it keeps
its prior value. -/
theorem C10_get_proc_address_never_mapped {V T : Type} (denv : egl_env V)
    (lookup : T → String → Bool → V) (tag : T) :
    (map_egl_functions (map_eglext_functions denv lookup tag) lookup tag).get_proc_address
        = denv.get_proc_address
    ∧ (map_eglext_functions denv lookup tag).get_proc_address = denv.get_proc_address
    ∧ (map_egl_functions denv lookup tag).get_proc_address = denv.get_proc_address
    ∧ (map_egl_functions denv lookup tag).get_config_attrib = lookup tag "eglGetConfigAttrib" true
    ∧ (map_egl_functions denv lookup tag).destroy_surface = lookup tag "eglDestroySurface" true
    ∧ (map_egl_functions denv lookup tag).get_error = lookup tag "eglGetError" true
    ∧ (map_egl_functions denv lookup tag).create_window_surface = lookup tag "eglCreateWindowSurface" true
    ∧ (map_egl_functions denv lookup tag).make_current = lookup tag "eglMakeCurrent" true
    ∧ (map_egl_functions denv lookup tag).get_display = lookup tag "eglGetDisplay" true
    ∧ (map_egl_functions denv lookup tag).init_fn = lookup tag "eglInitialize" true
    ∧ (map_egl_functions denv lookup tag).bind_api = lookup tag "eglBindAPI" true
    ∧ (map_egl_functions denv lookup tag).get_configs = lookup tag "eglGetConfigs" true
    ∧ (map_egl_functions denv lookup tag).choose_config = lookup tag "eglChooseConfig" true
    ∧ (map_egl_functions denv lookup tag).create_context = lookup tag "eglCreateContext" true
    ∧ (map_egl_functions denv lookup tag).destroy_context = lookup tag "eglDestroyContext" true
    ∧ (map_egl_functions denv lookup tag).terminate = lookup tag "eglTerminate" true
    ∧ (map_egl_functions denv lookup tag).query_string = lookup tag "eglQueryString" true
    ∧ (map_egl_functions denv lookup tag).swap_buffers = lookup tag "eglSwapBuffers" true
    ∧ (map_egl_functions denv lookup tag).swap_interval = lookup tag "eglSwapInterval" true := by
  exact ⟨rfl, rfl, rfl, rfl, rfl, rfl, rfl, rfl, rfl, rfl, rfl, rfl, rfl, rfl,
    rfl, rfl, rfl, rfl, rfl⟩

/-- C2: the tui input chain tries the layers in the strict order label,
UTF-8, key; it stops at the first layer that consumes, and a layer after
the consuming one never observes the event — in particular the final
state is exactly the consuming layer's output, so a consumed label never
additionally triggers the UTF-8 handler. -/
theorem C2_input_dispatch_chain_order {S : Type} (hl hu hk : S → Bool × S)
    (st : S) :
    (runChain (tui_chain hl hu hk) st).2.1 <+: [Layer.label, Layer.utf8, Layer.key]
    ∧ ((hl st).1 = true →
        runChain (tui_chain hl hu hk) st = ((hl st).2, [Layer.label], some Layer.label))
    ∧ ((hl st).1 = false → (hu (hl st).2).1 = true →
        runChain (tui_chain hl hu hk) st
          = ((hu (hl st).2).2, [Layer.label, Layer.utf8], some Layer.utf8))
    ∧ ((hl st).1 = false → (hu (hl st).2).1 = false →
        (runChain (tui_chain hl hu hk) st).1 = (hk (hu (hl st).2).2).2
        ∧ (runChain (tui_chain hl hu hk) st).2.1
            = [Layer.label, Layer.utf8, Layer.key]) := by
  refine ⟨?_, ?_, ?_, ?_⟩
  · cases h1 : (hl st).1 <;> cases h2 : (hu (hl st).2).1 <;>
      cases h3 : (hk (hu (hl st).2).2).1 <;>
      simp [runChain, tui_chain, h1, h2, h3]
  · intro h1
    simp [runChain, tui_chain, h1]
  · intro h1 h2
    simp [runChain, tui_chain, h1, h2]
  · intro h1 h2
    cases h3 : (hk (hu (hl st).2).2).1 <;>
      simp [runChain, tui_chain, h1, h2, h3]

/-- Witness for C2: concrete chains over a counter state, one per
consuming layer.  A consuming label leaves the counter at the label
handler's output (the UTF-8 handler, which would have added 2, never
ran). -/
theorem C2_input_dispatch_chain_order_witness :
    runChain (tui_chain hconsume hpass hpass) 0 = (1, [Layer.label], some Layer.label)
    ∧ runChain (tui_chain hpass hconsume hpass) 0
        = (3, [Layer.label, Layer.utf8], some Layer.utf8)
    ∧ (runChain (tui_chain hpass hpass hpass) 0).2.1
        = [Layer.label, Layer.utf8, Layer.key] := by
  refine ⟨?_, ?_, ?_⟩
  · exact (C2_input_dispatch_chain_order hconsume hpass hpass 0).2.1 rfl
  · exact (C2_input_dispatch_chain_order hpass hconsume hpass 0).2.2.1 rfl rfl
  · exact ((C2_input_dispatch_chain_order hpass hpass hpass 0).2.2.2 rfl rfl).2

theorem completion_enum_spec (cb : CompletionCb) (txt : String) :
    ∀ fuel idx,
      (completion_enum cb txt fuel idx).2.length ≤ fuel
      ∧ (completion_enum cb txt fuel idx).2 <+: List.range' idx fuel
      ∧ ∀ n ∈ (completion_enum cb txt fuel idx).2,
          ∀ m, idx ≤ m → m < n → (cb txt m).isSome := by
  intro fuel
  induction fuel with
  | zero =>
    intro idx
    simp [completion_enum]
  | succ fuel ih =>
    intro idx
    cases hcb : cb txt idx with
    | none =>
      refine ⟨?_, ?_, ?_⟩
      · simp [completion_enum, hcb]
      · rw [List.range'_succ]
        simp [completion_enum, hcb]
      · intro n hn m hm1 hm2
        simp [completion_enum, hcb] at hn
        omega
    | some c =>
      obtain ⟨ihlen, ihpre, ihstop⟩ := ih (idx + 1)
      refine ⟨?_, ?_, ?_⟩
      · simp [completion_enum, hcb]
        omega
      · rw [List.range'_succ]
        simp only [completion_enum, hcb]
        exact List.cons_prefix_cons.mpr ⟨rfl, ihpre⟩
      · intro n hn m hm1 hm2
        simp only [completion_enum, hcb, List.mem_cons] at hn
        rcases hn with hn | hn
        · omega
        · rcases Nat.eq_or_lt_of_le hm1 with hm | hm
          · rw [← hm, hcb]
            rfl
          · exact ihstop n hn m hm hm2

/-- C7: the completion enumeration is internally bounded: for any
collaborator and any fixed partial text it performs at most
`COMPLETION_BOUND` invocations (so even an always-true collaborator
cannot loop forever), the invoked indices are an initial segment of
0, 1, 2, ..., and an index is only ever invoked after every smaller
index returned a candidate (the loop stops at the first false). -/
theorem C7_completion_enumeration_bounded (cb : CompletionCb) (txt : String) :
    (readline_completion_run cb txt).2.length ≤ COMPLETION_BOUND
    ∧ (readline_completion_run cb txt).2 <+: List.range COMPLETION_BOUND
    ∧ ∀ n ∈ (readline_completion_run cb txt).2,
        ∀ m, m < n → (cb txt m).isSome := by
  obtain ⟨hlen, hpre, hstop⟩ := completion_enum_spec cb txt COMPLETION_BOUND 0
  refine ⟨hlen, ?_, ?_⟩
  · rw [List.range_eq_range']
    exact hpre
  · intro n hn m hm
    exact hstop n hn m (Nat.zero_le m) hm

/-- Witness for C7: the always-true collaborator is invoked a bounded
number of times, and invoking index 1 presupposes index 0 returned a
candidate. -/
theorem C7_completion_enumeration_bounded_witness :
    (readline_completion_run cbAlways "ab").2.length ≤ COMPLETION_BOUND
    ∧ (cbAlways "ab" 0).isSome = true := by
  refine ⟨(C7_completion_enumeration_bounded cbAlways "ab").1, ?_⟩
  exact (C7_completion_enumeration_bounded cbAlways "ab").2.2 1 (by decide) 0
    (by decide)

theorem rl_feed_cursor_le (st : ReadlineState) (ev : RLEvent)
    (h : st.cursor ≤ st.line.length) :
    (rl_feed st ev).cursor ≤ (rl_feed st ev).line.length := by
  cases ev with
  | utf8 cs =>
    simp only [rl_feed, rl_insert, List.length_append, List.length_take,
      List.length_drop]
    omega
  | key k =>
    cases k <;>
      simp only [rl_feed, rl_key] <;>
      (try split_ifs) <;>
      (try dsimp only) <;>
      (try simp only [List.length_append, List.length_take, List.length_drop]) <;>
      omega

theorem resolve_click_le (st : BufferwndState) (lx ly : Int) (off : Nat)
    (h : resolve_click st lx ly = some off) : off ≤ st.buf.length := by
  cases hm : st.mode <;>
    simp only [resolve_click, hm] at h <;>
    split_ifs at h <;>
    simp_all

theorem bw_feed_cursor_le (st : BufferwndState) (ev : BWEvent)
    (h : st.cursor ≤ st.buf.length) :
    (bufferwnd_feed st ev).cursor ≤ (bufferwnd_feed st ev).buf.length := by
  cases ev with
  | utf8 cs =>
    cases hm : st.mode <;>
      simp only [bufferwnd_feed, arcan_tui_bufferwnd_input_utf8, hm] <;>
      (try split_ifs) <;>
      (try dsimp only) <;>
      (try simp only [List.length_append, List.length_take, List.length_drop]) <;>
      omega
  | key k =>
    cases k <;>
      simp only [bufferwnd_feed, arcan_tui_bufferwnd_input_key] <;>
      (try split_ifs) <;>
      (try dsimp only) <;>
      (try simp only [List.length_append, List.length_take, List.length_drop]) <;>
      omega
  | mbtn lx ly b a m =>
    simp only [bufferwnd_feed, arcan_tui_bufferwnd_input_mbtn]
    split
    · cases hres : resolve_click st lx ly with
      | none => simpa [hres] using h
      | some off =>
        simpa [hres] using resolve_click_le st lx ly off hres
    · exact h

theorem foldl_preserve {S E : Type} (P : S → Prop) (f : S → E → S)
    (hstep : ∀ s e, P s → P (f s e)) :
    ∀ (evs : List E) (s : S), P s → P (evs.foldl f s) := by
  intro evs
  induction evs with
  | nil => exact fun s hs => hs
  | cons e es ih => exact fun s hs => ih (f s e) (hstep s e hs)

/-- C4: the readline cursor offset and the buffer-window edit cursor
always stay within [0, length]: every single operation preserves the
invariant, every event sequence fed from a state satisfying it keeps
satisfying it, and freshly created windows satisfy it. -/
theorem C4_cursor_offset_invariant :
    (∀ (st : ReadlineState) (ev : RLEvent), st.cursor ≤ st.line.length →
      (rl_feed st ev).cursor ≤ (rl_feed st ev).line.length)
    ∧ (∀ (st : ReadlineState), st.cursor ≤ st.line.length →
        ∀ evs : List RLEvent,
          (evs.foldl rl_feed st).cursor ≤ (evs.foldl rl_feed st).line.length)
    ∧ (∀ (st : BufferwndState) (ev : BWEvent), st.cursor ≤ st.buf.length →
        (bufferwnd_feed st ev).cursor ≤ (bufferwnd_feed st ev).buf.length)
    ∧ (∀ (st : BufferwndState), st.cursor ≤ st.buf.length →
        ∀ evs : List BWEvent,
          (evs.foldl bufferwnd_feed st).cursor
            ≤ (evs.foldl bufferwnd_feed st).buf.length)
    ∧ (∀ (ctx : TuiContext) (buf : List Byte) (we : Bool),
        (arcan_tui_bufferwnd ctx buf we).cursor
          ≤ (arcan_tui_bufferwnd ctx buf we).buf.length) := by
  refine ⟨rl_feed_cursor_le, ?_, bw_feed_cursor_le, ?_, ?_⟩
  · intro st hst evs
    exact foldl_preserve (fun s => s.cursor ≤ s.line.length) rl_feed
      rl_feed_cursor_le evs st hst
  · intro st hst evs
    exact foldl_preserve (fun s => s.cursor ≤ s.buf.length) bufferwnd_feed
      bw_feed_cursor_le evs st hst
  · intro ctx buf we
    exact Nat.zero_le _

/-- Witness for C4: the invariant instantiated on concrete states and a
concrete event sequence. -/
theorem C4_cursor_offset_invariant_witness :
    ((c3_events.foldl rl_feed rl_example).cursor
        ≤ (c3_events.foldl rl_feed rl_example).line.length)
    ∧ ((bufferwnd_feed bw_example (BWEvent.key TuiKey.right)).cursor
        ≤ (bufferwnd_feed bw_example (BWEvent.key TuiKey.right)).buf.length) := by
  refine ⟨?_, ?_⟩
  · exact C4_cursor_offset_invariant.2.1 rl_example (by decide) c3_events
  · exact C4_cursor_offset_invariant.2.2.1 bw_example (BWEvent.key TuiKey.right)
      (by decide)

/-- C8: with write-enable off, no input event ever changes the byte
buffer: every mutating operation is silently rejected as a no-op (the
input entry points have no error channel at all, matching the C API). -/
theorem C8_write_protect_noop (st : BufferwndState)
    (h : st.write_enable = false) (ev : BWEvent) :
    (bufferwnd_feed st ev).buf = st.buf := by
  cases ev with
  | utf8 cs =>
    cases hm : st.mode <;>
      simp [bufferwnd_feed, arcan_tui_bufferwnd_input_utf8, hm, h]
  | key k =>
    cases k <;>
      simp [bufferwnd_feed, arcan_tui_bufferwnd_input_key, h] <;>
      (try split_ifs) <;>
      (try simp)
  | mbtn lx ly b a m =>
    simp only [bufferwnd_feed, arcan_tui_bufferwnd_input_mbtn]
    split
    · cases hres : resolve_click st lx ly <;> simp [hres]
    · rfl

/-- Witness for C8: a write-protected 16-byte binary-mode window leaves
the buffer untouched on a delete key. -/
theorem C8_write_protect_noop_witness :
    (bufferwnd_feed bw_example (BWEvent.key TuiKey.delete)).buf = bw_example.buf
    ∧ bw_example.write_enable = false
    ∧ bw_example.mode = BufMode.binary
    ∧ bw_example.buf.length = 16 := by
  exact ⟨C8_write_protect_noop bw_example rfl (BWEvent.key TuiKey.delete),
    rfl, rfl, by decide⟩

/-- C9: boundary conditions are silent no-ops that leave the engine
state unchanged: editing keys at the start or end of the buffer, any
editing key on an empty buffer, and a pointer click that resolves
outside the rendered grid. -/
theorem C9_boundary_noop :
    (∀ st : ReadlineState, st.cursor = 0 →
      rl_feed st (RLEvent.key TuiKey.left) = st
      ∧ rl_feed st (RLEvent.key TuiKey.backspace) = st)
    ∧ (∀ st : ReadlineState, st.cursor = st.line.length →
      rl_feed st (RLEvent.key TuiKey.right) = st
      ∧ rl_feed st (RLEvent.key TuiKey.delete) = st)
    ∧ (∀ st : ReadlineState, st.line = [] → st.cursor = 0 →
      rl_feed st (RLEvent.key TuiKey.left) = st
      ∧ rl_feed st (RLEvent.key TuiKey.right) = st
      ∧ rl_feed st (RLEvent.key TuiKey.home) = st
      ∧ rl_feed st (RLEvent.key TuiKey.kend) = st
      ∧ rl_feed st (RLEvent.key TuiKey.backspace) = st
      ∧ rl_feed st (RLEvent.key TuiKey.delete) = st)
    ∧ (∀ st : BufferwndState, st.cursor = 0 →
      arcan_tui_bufferwnd_input_key st TuiKey.left = st
      ∧ arcan_tui_bufferwnd_input_key st TuiKey.backspace = st)
    ∧ (∀ st : BufferwndState, st.cursor = st.buf.length →
      arcan_tui_bufferwnd_input_key st TuiKey.right = st
      ∧ arcan_tui_bufferwnd_input_key st TuiKey.delete = st)
    ∧ (∀ st : BufferwndState, st.buf = [] → st.cursor = 0 →
      arcan_tui_bufferwnd_input_key st TuiKey.left = st
      ∧ arcan_tui_bufferwnd_input_key st TuiKey.right = st
      ∧ arcan_tui_bufferwnd_input_key st TuiKey.home = st
      ∧ arcan_tui_bufferwnd_input_key st TuiKey.kend = st
      ∧ arcan_tui_bufferwnd_input_key st TuiKey.backspace = st
      ∧ arcan_tui_bufferwnd_input_key st TuiKey.delete = st)
    ∧ (∀ (st : BufferwndState) (lx ly : Int) (b : Nat) (a : Bool) (m : Nat),
      resolve_click st lx ly = none →
      arcan_tui_bufferwnd_input_mbtn st lx ly b a m = st) := by
  refine ⟨?_, ?_, ?_, ?_, ?_, ?_, ?_⟩
  · intro st h
    obtain ⟨l, c, d, hs, m⟩ := st
    simp_all [rl_feed, rl_key]
  · intro st h
    obtain ⟨l, c, d, hs, m⟩ := st
    simp_all [rl_feed, rl_key]
  · intro st h1 h2
    obtain ⟨l, c, d, hs, m⟩ := st
    simp_all [rl_feed, rl_key]
  · intro st h
    obtain ⟨b, c, mo, we, r, co⟩ := st
    cases we <;> simp_all [arcan_tui_bufferwnd_input_key]
  · intro st h
    obtain ⟨b, c, mo, we, r, co⟩ := st
    cases we <;> simp_all [arcan_tui_bufferwnd_input_key]
  · intro st h1 h2
    obtain ⟨b, c, mo, we, r, co⟩ := st
    cases we <;> simp_all [arcan_tui_bufferwnd_input_key]
  · intro st lx ly b a m h
    simp [arcan_tui_bufferwnd_input_mbtn, h]

/-- Witness for C9: boundary keys on a concrete empty-line engine and an
out-of-grid click on a concrete window are exact no-ops. -/
theorem C9_boundary_noop_witness :
    rl_feed rl_example (RLEvent.key TuiKey.left) = rl_example
    ∧ rl_feed rl_example (RLEvent.key TuiKey.right) = rl_example
    ∧ rl_feed rl_example (RLEvent.key TuiKey.delete) = rl_example
    ∧ arcan_tui_bufferwnd_input_mbtn bw_example (-1) 0 0 true 0 = bw_example := by
  refine ⟨(C9_boundary_noop.1 rl_example rfl).1,
    (C9_boundary_noop.2.1 rl_example rfl).1,
    (C9_boundary_noop.2.1 rl_example rfl).2,
    C9_boundary_noop.2.2.2.2.2.2 bw_example (-1) 0 0 true 0 (by decide)⟩

end Arcan
